import Mathlib

/-!
Verification development for the OIC Monitor MCP gateway server.

The definitions below are a shallow embedding of the TypeScript sources:
  * `src/MCPServers/oic-monitor-server/src/tokenManager.ts` (two `TokenManager`
    variants are concatenated in that file: a parameterized one writing
    `.oic_mcp_token_<env>.json`, and the variant cited by the server code,
    whose constructor takes no argument and always writes `.oic_mcp_token.json`),
  * the server in `src/unnamed/part_015` (class `OicMonitorServer`:
    `getAccessToken`, `setupHandlers`, `fetchSingle`, `fetchWithPagination`),
  * `src/MCPServers/oic-monitor-server/src/schemas.ts`,
  * the bulk tools `src/MCPServers/oic-monitor-server/src/tools/
    monitoringResubmitErroredInstances.ts`, `monitoringDiscardErroredInstances.ts`
    and the variant in `src/unnamed/part_005`.

Machine integers are modelled as `Int`/`Nat` (JS numbers in the code stay far
below 2^53, no overflow is reachable); fallible code returns `Except`;
the HTTP upstream is modelled as a trace of responses consumed in order,
with the outgoing requests recorded so theorems can speak about them.
-/

/-! ### JavaScript truthiness helpers

JS `x || d` with string `x`: both `undefined` and `""` fall through to `d`. -/

/-- JS truthiness of an optional string (`undefined` and `""` are falsy). -/
def truthyS : Option String → Bool
  | some s => s ≠ ""
  | none => false

/-- JS `x || d` on strings (`undefined` and `""` both give `d`). -/
def jsOrStr (x : Option String) (d : String) : String :=
  match x with
  | some s => if s = "" then d else s
  | none => d

/-- JS `x || d` on numbers (`undefined` and `0` are falsy). -/
def jsOrNat (x : Option Nat) (d : Nat) : Nat :=
  match x with
  | some n => if n = 0 then d else n
  | none => d

/-- JS `x || d` on numbers, `Int` version (used for `expires_in || 3600`). -/
def jsOrInt (x : Option Int) (d : Int) : Int :=
  match x with
  | some n => if n = 0 then d else n
  | none => d

/-! ### TokenManager (tokenManager.ts)

The on-disk token files are modelled as an association list keyed by path. -/

/-- The JSON record persisted by `TokenManager.saveToken`
(`accessToken`, absolute `expiry` in ms since epoch). -/
structure TokenData where
  accessToken : String
  expiry : Int
deriving Repr, DecidableEq

/-- The file system as seen by the token managers: path ↦ token record. -/
def Store := List (String × TokenData)

instance : DecidableEq Store := by
  unfold Store; infer_instance

/-- `fs.existsSync` + `readFileSync`: first record at the given path. -/
def storeLookup (store : Store) (path : String) : Option TokenData :=
  match store with
  | [] => none
  | (p, td) :: rest => if p = path then some td else storeLookup rest path

/-- `fs.unlinkSync`: remove the record at the given path. -/
def storeErase (store : Store) (path : String) : Store :=
  match store with
  | [] => []
  | (p, td) :: rest => if p = path then storeErase rest path else (p, td) :: storeErase rest path

/-- `fs.writeFileSync`: (over)write the record at the given path. -/
def storeInsert (store : Store) (path : String) (td : TokenData) : Store :=
  (path, td) :: storeErase store path

/-- `TokenManager` constructor of the variant used by the server
(`tokenManager.ts` line 112): a single fixed path, no tenant component:
`path.join(os.homedir(), ".oic_mcp_token.json")`. -/
def tokenFilePath (homedir : String) : String :=
  homedir ++ "/.oic_mcp_token.json"

/-- `TokenManager` constructor of the parameterized variant
(`tokenManager.ts` line 19): `.oic_mcp_token_<environment>.json`. -/
def tokenFilePathEnv (homedir environment : String) : String :=
  homedir ++ "/.oic_mcp_token_" ++ environment ++ ".json"

/-- The server (`part_015` lines 25-28, likewise `index.ts` lines 237-240)
builds one manager per environment with `new TokenManager()` — no argument —
so every environment's manager gets the same file path. -/
def serverTokenManagerPath (homedir : String) (environment : String) : String :=
  tokenFilePath homedir

/-- The absolute expiry computed by `TokenManager.saveToken`:
`Date.now() + expiresInSeconds * 1000 - 60000` (60 s safety buffer). -/
def saveTokenExpiry (now expiresInSeconds : Int) : Int :=
  now + expiresInSeconds * 1000 - 60000

/-- `TokenManager.saveToken`: persist the record with the buffered expiry. -/
def saveToken (now : Int) (store : Store) (path accessToken : String)
    (expiresInSeconds : Int) : Store :=
  storeInsert store path ⟨accessToken, saveTokenExpiry now expiresInSeconds⟩

/-- `TokenManager.clearToken`: unlink the file. -/
def clearToken (store : Store) (path : String) : Store :=
  storeErase store path

/-- `TokenManager.getToken`: return the token while `Date.now() < expiry`,
otherwise clear the expired record and return nothing.
Result: (returned token, resulting file system). -/
def getToken (now : Int) (store : Store) (path : String) : Option String × Store :=
  match storeLookup store path with
  | none => (none, store)
  | some td =>
    if now < td.expiry then (some td.accessToken, store)
    else (none, clearToken store path)

/-! ### getAccessToken (`part_015` lines 56-111) -/

/-- A tenant environment's configuration (config.ts `getConfigForEnvironment`). -/
structure EnvConfig where
  clientId : String
  clientSecret : String
  tokenUrl : String
  scope : String
  apiBaseUrl : String
  integrationInstance : String
deriving Repr, DecidableEq

/-- Response of the OAuth token endpoint (`axios.post(envConfig.tokenUrl, ...)`). -/
inductive TokenEndpointResp where
  | ok (access_token : String) (expires_in : Option Int)
  | fail (status : Nat) (statusText : String) (body : String)
deriving Repr, DecidableEq

/-- Result of `getAccessToken`: the token or the thrown error message,
the number of token-endpoint POSTs made, and the resulting file system. -/
structure GatOut where
  result : Except String String
  endpointCalls : Nat
  store : Store

/-- `OicMonitorServer.getAccessToken` (`part_015` lines 56-111).
`environment || 'dev'` picks the manager, but every manager was built with
`new TokenManager()` and therefore reads and writes `tokenFilePath homedir`.
When no usable cached token exists, a client-credentials grant is performed
against the tenant's token URL (modelled by `endpoint`) and the token is
cached via `saveToken`; `expires_in` defaults to 3600. -/
def getAccessToken (now : Int) (store : Store) (homedir : String) (cfg : EnvConfig)
    (forceRefresh : Bool) (environment : Option String)
    (endpoint : TokenEndpointResp) : GatOut :=
  let env := jsOrStr environment "dev"
  let path := serverTokenManagerPath homedir env
  let cached : Option String × Store :=
    if forceRefresh then (none, store) else getToken now store path
  match cached with
  | (some tok, store1) => ⟨Except.ok tok, 0, store1⟩
  | (none, store1) =>
    if cfg.clientId = "" ∨ cfg.clientSecret = "" ∨ cfg.tokenUrl = "" then
      ⟨Except.error ("OIC authentication credentials not configured for environment " ++ env
        ++ ". Please set OIC_CLIENT_ID, OIC_CLIENT_SECRET, and OIC_TOKEN_URL in .env."
        ++ env ++ " file."), 0, store1⟩
    else
      match endpoint with
      | TokenEndpointResp.ok accessToken expiresInOpt =>
        let expiresIn := jsOrInt expiresInOpt 3600
        ⟨Except.ok accessToken, 1, saveToken now store1 path accessToken expiresIn⟩
      | TokenEndpointResp.fail status statusText body =>
        ⟨Except.error ("Authentication failed: " ++ toString status ++ " " ++ statusText
          ++ " - " ++ body), 1, store1⟩

/-! ### fetchSingle (`part_015` lines 612-632) and the dispatcher's error
classifier (`part_015` lines 575-608)

The upstream is modelled as a trace of responses consumed in order; an
exhausted trace stands for a network failure without a response
(axios error with `error.request` but no `error.response`). -/

/-- One upstream response to a single GET. -/
inductive SingleResp where
  | ok (data : String)
  | httpErr (status : Nat) (statusText : String) (data : Option String)
deriving Repr, DecidableEq

/-- A failure escaping a fetch primitive: an HTTP error response, or a
transport failure with no response at all. -/
inductive FetchErr where
  | httpFailure (status : Nat) (statusText : String) (data : Option String)
  | network
deriving Repr, DecidableEq

/-- Result of `fetchSingle`: outcome, number of token refreshes
(`clearToken` + `getAccessToken(force)` pairs), number of GETs issued. -/
structure FetchSingleOut where
  result : Except FetchErr String
  refreshes : Nat
  requests : Nat

/-- `OicMonitorServer.fetchSingle` (`part_015` lines 612-632): one GET;
on a 401 with `retryOn401` set, evict the token, force-refresh, and retry
once with `retryOn401 = false`; every other failure propagates. -/
def fetchSingle (trace : List SingleResp) (retryOn401 : Bool) : FetchSingleOut :=
  match trace with
  | [] => ⟨Except.error FetchErr.network, 0, 1⟩
  | SingleResp.ok d :: _ => ⟨Except.ok d, 0, 1⟩
  | SingleResp.httpErr status statusText data :: rest =>
    if status = 401 ∧ retryOn401 then
      let r := fetchSingle rest false
      ⟨r.result, r.refreshes + 1, r.requests + 1⟩
    else ⟨Except.error (FetchErr.httpFailure status statusText data), 0, 1⟩

/-- The dispatcher's catch block (`part_015` lines 575-595): the message
rendered into the `isError` MCP content for a failure escaping a handler. -/
def errorMessage (name : String) (e : FetchErr) : String :=
  match e with
  | FetchErr.httpFailure status statusText data =>
    if status = 401 then
      "Authentication failed (401): The access token may be invalid or expired. Please check your OIC credentials."
    else if status = 403 then
      "Authorization failed (403): You don\x27t have permission to access this resource."
    else if status = 404 then
      "Resource not found (404): The requested endpoint does not exist."
    else
      "Error executing " ++ name ++ ": " ++ toString status ++ " " ++ statusText
        ++ (match data with | some d => " - " ++ d | none => "")
  | FetchErr.network =>
    "Network error: Unable to reach the API server. Please check your network connection and API base URL."

/-! ### fetchWithPagination (`part_015` lines 634-759)

Date-keyed batched pagination: inner loop over `offset = 0, limit, ...`
up to the 500 cap, outer loop rewriting the `q` filter with a
`startdate:".."` clause read from the last record of the previous batch. -/

/-- The date-bearing keys of an upstream item
(`part_015` line 735); everything else about an item is irrelevant to the
server, so only these five JSON fields are modelled. -/
structure PagItem where
  creationDateHyphen : Option String
  creationDateCamel : Option String
  lastTrackedTimeHyphen : Option String
  lastTrackedTimeCamel : Option String
  dateKey : Option String
deriving Repr, DecidableEq

/-- JS `a || b` on optional strings (empty string is falsy). -/
def jsOrS (a b : Option String) : Option String :=
  match a with
  | some s => if s = "" then b else some s
  | none => b

/-- `part_015` line 735:
`lastItem["creation-date"] || lastItem["creationDate"] ||
 lastItem["last-tracked-time"] || lastItem["lastTrackedTime"] || lastItem["date"]`,
post-composed with the `if (lastDate)` truthiness test of line 737. -/
def recordDate (it : PagItem) : Option String :=
  jsOrS it.creationDateHyphen (jsOrS it.creationDateCamel
    (jsOrS it.lastTrackedTimeHyphen (jsOrS it.lastTrackedTimeCamel
      (jsOrS it.dateKey none))))

/-- One upstream response to a paginated GET. -/
inductive PageResp where
  | ok (items : List PagItem) (totalRecordsCount : Option Nat)
  | httpErr (status : Nat)
deriving Repr, DecidableEq

/-- A recorded outgoing GET of the pagination loop (its `q`, `offset`,
`limit` parameters). -/
structure UpReq where
  q : Option String
  offset : Nat
  limit : Nat
deriving Repr, DecidableEq

/-- A failure escaping `fetchWithPagination`. -/
inductive PagErr where
  | httpStatus (status : Nat)
  | network
deriving Repr, DecidableEq

/-- Result of the inner batch loop (`part_015` lines 674-721), plus the
bookkeeping needed by the theorems: the requests issued during the batch,
how many got a 2xx response (`okRequests`), how many 401-triggered token
refreshes happened, and whether the batch ended because the next offset
would have exceeded the 500 cap (`endedAtCap`, the break on line 705-707). -/
structure BatchRes where
  err : Option PagErr
  batchItems : List PagItem
  totalRecords : Option Nat
  rest : List PageResp
  reqs : List UpReq
  okRequests : Nat
  refreshes : Nat
  endedAtCap : Bool

/-- The inner batch loop of `fetchWithPagination` (`part_015` lines 674-721):
`while (offset <= 500)` issue a GET; on success append the items, stop when
the page is short, advance `offset` by `limit`, stop past the cap; on a 401
with `retryOn401` refresh the token and retry the same request — note the
code never clears `retryOn401`; on any other error rethrow. -/
def batchLoop (retryOn401 : Bool) (limit : Nat) (qParam : Option String)
    (trace : List PageResp) (offset : Nat) (acc : List PagItem)
    (totalRecords : Option Nat) (accReqs : List UpReq)
    (okReqs refreshes : Nat) : BatchRes :=
  if offset ≤ 500 then
    match trace with
    | [] =>
      ⟨some PagErr.network, acc, totalRecords, [],
        accReqs ++ [⟨qParam, offset, limit⟩], okReqs, refreshes, false⟩
    | PageResp.ok items tot :: rest =>
      let reqs := accReqs ++ [⟨qParam, offset, limit⟩]
      let acc2 := acc ++ items
      let totalRecords2 :=
        match tot with
        | some t => if totalRecords = none then some t else totalRecords
        | none => totalRecords
      if items.length < limit then
        ⟨none, acc2, totalRecords2, rest, reqs, okReqs + 1, refreshes, false⟩
      else if 500 < offset + limit then
        ⟨none, acc2, totalRecords2, rest, reqs, okReqs + 1, refreshes, true⟩
      else
        batchLoop retryOn401 limit qParam rest (offset + limit) acc2 totalRecords2
          reqs (okReqs + 1) refreshes
    | PageResp.httpErr status :: rest =>
      let reqs := accReqs ++ [⟨qParam, offset, limit⟩]
      if status = 401 ∧ retryOn401 then
        batchLoop retryOn401 limit qParam rest offset acc totalRecords reqs okReqs
          (refreshes + 1)
      else
        ⟨some (PagErr.httpStatus status), acc, totalRecords, rest, reqs, okReqs,
          refreshes, false⟩
  else
    ⟨none, acc, totalRecords, trace, accReqs, okReqs, refreshes, false⟩

/-! #### The filter rewrite (`part_015` lines 655-668)

`baseQuery = baseQuery.replace(/startdate:[^,}]+/g, "")` followed by
`baseQuery = baseQuery.replace(/\x7d$/, ", startdate:\x27<date>\x27\x7d")`.
The two regex replacements are implemented below on character lists. -/

/-- The characters terminating the `[^,}]+` run of the startdate regex. -/
def isStopChar (c : Char) : Bool :=
  c = ',' ∨ c = '\x7d'

/-- Skip the maximal `[^,}]*` run, returning the remaining suffix together
with a length bound (used for termination of the scanner). -/
def skipRun (cs : List Char) : { l : List Char // l.length ≤ cs.length } :=
  match cs with
  | [] => ⟨[], Nat.le_refl 0⟩
  | c :: rest =>
    if isStopChar c then ⟨c :: rest, Nat.le_refl _⟩
    else
      let r := skipRun rest
      ⟨r.1, Nat.le_succ_of_le r.2⟩

/-- Left-to-right scan of the global replacement
`replace(/startdate:[^,}]+/g, "")`: at each position, if `startdate:`
followed by at least one non-`,`/`}` character matches, delete the match and
continue after it; otherwise keep the character and advance. The scan
recurses structurally on a fuel counter so that it evaluates by reduction;
every step consumes at least one character, so fuel equal to the input
length (as supplied by `removeStartdate` below) is never exhausted and the
fuel-out branch is unreachable. -/
def removeStartdateAux (fuel : Nat) (cs : List Char) : List Char :=
  match fuel, cs with
  | 0, cs => cs
  | _ + 1, [] => []
  | fuel + 1, c :: rest =>
    if "startdate:".toList.isPrefixOf (c :: rest) then
      match rest.drop 9 with
      | [] => c :: removeStartdateAux fuel rest
      | a :: afterRest =>
        if isStopChar a then c :: removeStartdateAux fuel rest
        else removeStartdateAux fuel (skipRun (a :: afterRest)).1
    else c :: removeStartdateAux fuel rest

/-- `baseQuery.replace(/startdate:[^,}]+/g, "")`. -/
def removeStartdate (s : String) : String :=
  String.mk (removeStartdateAux s.toList.length s.toList)

/-- `baseQuery.replace(/\x7d$/, ", startdate:\x27<date>\x27\x7d")`: the
anchored `$` matches at the end of the string or before a final newline;
without a match the string is unchanged. -/
def appendStartdate (s d : String) : String :=
  match s.toList.reverse with
  | '\x7d' :: revRest =>
    String.mk (revRest.reverse ++ (", startdate:\x27" ++ d ++ "\x27\x7d").toList)
  | '\n' :: '\x7d' :: revRest =>
    String.mk (revRest.reverse ++ (", startdate:\x27" ++ d ++ "\x27\x7d").toList ++ ['\n'])
  | _ => s

/-- The whole filter rewrite of `part_015` lines 659-666: a nonempty
`baseQuery` has its `startdate` runs removed and the new clause spliced in
before the terminating brace; an empty one becomes `{startdate:'<date>'}`. -/
def rewriteQuery (baseQuery d : String) : String :=
  if baseQuery = "" then "\x7bstartdate:\x27" ++ d ++ "\x27\x7d"
  else appendStartdate (removeStartdate baseQuery) d

/-! #### The outer batch loop (`part_015` lines 647-759) -/

/-- The value returned by `fetchWithPagination` (`part_015` lines 754-758). -/
structure PagOut where
  totalRecords : Nat
  retrievedRecords : Nat
  items : List PagItem
deriving Repr, DecidableEq

/-- Ghost bookkeeping of one pagination run: every request issued (in
order), how many received a 2xx, how many 401-triggered token refreshes
happened, and the final batch counter. -/
structure PagStats where
  requests : List UpReq
  okRequests : Nat
  refreshes : Nat
  batches : Nat
deriving Repr, DecidableEq

/-- A full pagination run: outcome plus bookkeeping. -/
structure PagRun where
  result : Except PagErr PagOut
  stats : PagStats

/-- The mutable locals of the outer `while (hasMoreRecords)` loop. -/
structure PagState where
  allItems : List PagItem
  totalRecords : Option Nat
  baseQuery : String
  lastRecordDate : Option String
  batchNumber : Nat

/-- The outer loop of `fetchWithPagination` (`part_015` lines 647-752):
per iteration, rewrite `q` when a last-record date is set, run one inner
batch from `offset = 0`, stop on a short or empty batch, read the record
date of the batch's final item (stop when absent), and stop after the
safety check `if (batchNumber > 100)`.

First, the `q` parameter sent during a batch (`part_015` lines 654-668):
the rewritten `baseQuery` once a last-record date is set, otherwise the
caller's original `q`; the second component is the resulting `baseQuery`
variable. -/
def pagQuery (qInit : Option String) (st : PagState) : Option String × String :=
  match st.lastRecordDate with
  | some d => let b := rewriteQuery st.baseQuery d; (some b, b)
  | none => (qInit, st.baseQuery)

/-- The outer `while (hasMoreRecords)` loop proper (`part_015` lines 647-752).

The loop's safety check `if (batchNumber > 100) break` (line 748) bounds it
to 101 iterations; it is rendered here as structural recursion on the
remaining-iterations budget `rem`, maintained as `rem = 101 - batchNumber`
(top-level call: `rem = 101`, `batchNumber = 0`): the loop continues after
a batch exactly when `batchNumber + 1 ≤ 100`, i.e. exactly when `rem ≥ 2`. -/
def pagLoop (rem : Nat) (retryOn401 : Bool) (limit : Nat) (qInit : Option String)
    (trace : List PageResp) (st : PagState) (accReqs : List UpReq)
    (accOk accRefreshes : Nat) : PagRun :=
  let rewritten := pagQuery qInit st
  let b := batchLoop retryOn401 limit rewritten.1 trace 0 [] st.totalRecords [] 0 0
  let reqs := accReqs ++ b.reqs
  let okr := accOk + b.okRequests
  let refr := accRefreshes + b.refreshes
  match b.err with
  | some e => ⟨Except.error e, ⟨reqs, okr, refr, st.batchNumber⟩⟩
  | none =>
    let allItems := st.allItems ++ b.batchItems
    let done : PagRun :=
      ⟨Except.ok ⟨(match b.totalRecords with | some t => t | none => allItems.length),
        allItems.length, allItems⟩,
       ⟨reqs, okr, refr, st.batchNumber + 1⟩⟩
    if b.batchItems.length = 0 ∨ b.batchItems.length < limit then done
    else
      match b.batchItems.getLast? with
      | none => done
      | some lastItem =>
        match recordDate lastItem with
        | none => done
        | some d =>
          match rem with
          | 0 => done
          | rem' + 1 =>
            if rem' = 0 then done
            else
              pagLoop rem' retryOn401 limit qInit b.rest
                ⟨allItems, b.totalRecords, rewritten.2, some d, st.batchNumber + 1⟩
                reqs okr refr

/-- `OicMonitorServer.fetchWithPagination` (`part_015` lines 634-759):
`limit = initialParams.limit || 50`, `baseQuery = initialParams.q || ""`,
then the batched loop starting with no last-record date and the full
101-iteration budget. -/
def fetchWithPagination (trace : List PageResp) (qInit : Option String)
    (limitParam : Option Nat) (retryOn401 : Bool) : PagRun :=
  pagLoop 101 retryOn401 (jsOrNat limitParam 50) qInit trace
    ⟨[], none, jsOrStr qInit "", none, 0⟩ [] 0 0

/-- Substring test (used by theorems to speak about `startdate` clauses). -/
def containsSub (needle : List Char) : List Char → Bool
  | [] => needle.isEmpty
  | c :: rest => needle.isPrefixOf (c :: rest) || containsSub needle rest

/-- Does a filter string contain a `startdate` key at all? -/
def hasStartdate (s : String) : Bool :=
  containsSub "startdate".toList s.toList

/-! ### Bulk resubmit / discard tools

`src/MCPServers/oic-monitor-server/src/tools/monitoringResubmitErroredInstances.ts`
(one collective POST of the whole id array), the variant in
`src/unnamed/part_005` (same single POST, with size validation), and
`src/MCPServers/oic-monitor-server/src/tools/monitoringDiscardErroredInstances.ts`
(one POST with a null body, no id array at all). -/

/-- Observable behaviour of one bulk-tool invocation: outcome (thrown
message or the upstream response data returned verbatim), the number of
`getAccessToken` calls made, and the bodies of the upstream POSTs issued
(`none` = null body, `some ids` = the id array in the JSON body). -/
structure BulkRunOut where
  result : Except String String
  tokenAcquisitions : Nat
  posts : List (Option (List String))

/-- `monitoringResubmitErroredInstancesTool.execute`
(`tools/monitoringResubmitErroredInstances.ts` lines 11-42): after the
environment check, acquire a token and issue a single POST to
`/monitoring/errors/resubmit` whose body is `{instanceIds}` when the ids
argument is present (a JS array — even an empty one — is truthy) and null
otherwise; the upstream response is returned unchanged. -/
def resubmitErroredInstancesExecute (environment : Option String)
    (instanceIds : Option (List String)) (upstreamResp : String) : BulkRunOut :=
  if truthyS environment = false then
    ⟨Except.error "Environment parameter is required. Valid values: \x27dev\x27, \x27qa3\x27, \x27prod1\x27, \x27prod3\x27",
      0, []⟩
  else
    ⟨Except.ok upstreamResp, 1,
      [match instanceIds with
       | some ids => some ids
       | none => none]⟩

/-- The `part_005` variant of the same tool (lines 11-58): reject a missing
or empty `instanceIds` array before acquiring a token; acquire the token;
reject more than 50 ids (after the token acquisition); otherwise issue a
single POST with `{ids: instanceIds}`. -/
def resubmitErroredInstancesExecuteV2 (environment : Option String)
    (instanceIds : Option (List String)) (upstreamResp : String) : BulkRunOut :=
  if truthyS environment = false then
    ⟨Except.error "Environment parameter is required. Valid values: \x27dev\x27, \x27qa3\x27, \x27prod1\x27, \x27prod3\x27",
      0, []⟩
  else
    match instanceIds with
    | none =>
      ⟨Except.error "instanceIds parameter is required. Provide an array of instance IDs to resubmit.",
        0, []⟩
    | some ids =>
      if ids.length = 0 then
        ⟨Except.error "instanceIds parameter is required. Provide an array of instance IDs to resubmit.",
          0, []⟩
      else if 50 < ids.length then
        ⟨Except.error ("Maximum 50 instanceIds allowed per request. Received: "
          ++ toString ids.length), 1, []⟩
      else
        ⟨Except.ok upstreamResp, 1, [some ids]⟩

/-- `monitoringDiscardErroredInstancesTool.execute`
(`tools/monitoringDiscardErroredInstances.ts` lines 11-39): the bulk discard
tool accepts no id array at all — after the environment check it acquires a
token and issues one POST to `/monitoring/errors/discard` with a null body. -/
def discardErroredInstancesExecute (environment : Option String)
    (upstreamResp : String) : BulkRunOut :=
  if truthyS environment = false then
    ⟨Except.error "Environment parameter is required. Valid values: \x27dev\x27, \x27qa3\x27, \x27prod1\x27, \x27prod3\x27",
      0, []⟩
  else
    ⟨Except.ok upstreamResp, 1, [none]⟩

/-! ### Dispatcher pre-upstream phase and the tool input schemas

`setupHandlers` (`part_015` lines 239-609) and `schemas.ts`. The dispatch
of a `tools/call` is modelled up to (and including) the choice of the
environment handed to `getAccessToken`: `proceeds env` means the handler
passed its ad-hoc argument checks (if any) and continues with
`getAccessToken(cfg, false, env)` followed by the upstream request. -/

/-- The argument object of a `tools/call`, restricted to the properties the
dispatcher and the schemas inspect. Arguments are modelled well-typed; a
property that the caller omitted is `none`. -/
structure ToolArgs where
  environment : Option String
  duration : Option String
  status : Option String
  id : Option String
  key : Option String
  q : Option String
  orderBy : Option String
  returnField : Option String
  instanceIds : Option (List String)
deriving Repr, DecidableEq

/-- A `tools/call` with every property omitted. -/
def noArgs : ToolArgs :=
  ⟨none, none, none, none, none, none, none, none, none⟩

/-- Outcome of the pre-upstream phase of a dispatch. -/
inductive PreOutcome where
  | invalidArgs (msg : String)
  | proceeds (environmentUsed : String)
  | unknownTool
deriving Repr, DecidableEq

/-- The tools of the `part_015` catalog other than `monitoringInstances`;
each of their `case` arms calls `getAccessToken(CONFIG, false, "dev")`
without inspecting the `environment` argument and without validating any
argument against the schema (`part_015` lines 299-543). -/
def devDefaultingTools : List String :=
  ["monitoringInstanceDetails", "monitoringIntegrations",
   "monitoringIntegrationDetails", "monitoringAgentGroups",
   "monitoringAgentGroupDetails", "monitoringAgentsInGroup",
   "monitoringAuditRecords", "monitoringErrorRecoveryJobs",
   "monitoringErroredInstances", "monitoringScheduledRuns",
   "monitoringActivityStream", "monitoringLogs", "monitoringAbortInstance",
   "monitoringDiscardErroredInstance", "monitoringDiscardErroredInstances",
   "monitoringResubmitErroredInstance", "monitoringResubmitErroredInstances",
   "monitoringErrorRecoveryJobDetails", "monitoringErroredInstanceDetails",
   "monitoringHistory", "monitoringActivityStreamDetails",
   "monitoringMessageCountSummary", "monitoringAgentDetails"]

/-- The pre-upstream phase of the `CallToolRequestSchema` handler
(`part_015` lines 250-547): only `monitoringInstances` validates arguments
(truthiness checks on `environment`, `duration`, `status`, lines 253-261)
and derives the environment from the arguments (line 263); every other tool
proceeds directly with the `dev` environment; an unknown name throws. -/
def dispatchPre (name : String) (p : ToolArgs) : PreOutcome :=
  if name = "monitoringInstances" then
    if truthyS p.environment = false then
      PreOutcome.invalidArgs "Environment parameter is required. Valid values: \x27dev\x27, \x27qa3\x27, \x27prod1\x27, \x27prod3\x27"
    else if truthyS p.duration = false then
      PreOutcome.invalidArgs "Duration parameter is required. Valid values: \x271h\x27, \x276h\x27, \x271d\x27, \x272d\x27, \x273d\x27, \x27RETENTIONPERIOD\x27"
    else if truthyS p.status = false then
      PreOutcome.invalidArgs "Status parameter is required. Valid values: \x27IN_PROGRESS\x27, \x27COMPLETED\x27, \x27FAILED\x27, \x27ABORTED\x27"
    else
      PreOutcome.proceeds (jsOrStr p.environment "")
  else if devDefaultingTools.contains name then
    PreOutcome.proceeds "dev"
  else
    PreOutcome.unknownTool

/-! #### Tool input schemas (`schemas.ts`)

The `required` lists, `enum`s and `minLength` bounds of `schemas.ts`,
restricted to the properties present in `ToolArgs` (arguments are modelled
well-typed, so JSON type mismatches are out of scope of this model). -/

/-- `schemas.ts` environment enum (every tool). -/
def envEnum : List String := ["dev", "qa3", "prod1", "prod3"]

/-- `schemas.ts` duration enum (`monitoringInstances`, `monitoringErroredInstances`). -/
def durationEnum : List String := ["1h", "6h", "1d", "2d", "3d", "RETENTIONPERIOD"]

/-- `schemas.ts` status enum (`monitoringInstances`). -/
def statusEnum : List String := ["IN_PROGRESS", "COMPLETED", "FAILED", "ABORTED"]

/-- `schemas.ts` orderBy enum (`commonListSchema`). -/
def orderByEnum : List String := ["lastupdateddate", "creationdate", "executiontime"]

/-- `schemas.ts` return enum (`monitoringIntegrations`). -/
def returnEnum : List String := ["all", "active", "inactive"]

/-- An optional property, constrained by an enum when present. -/
def optInEnum (v : Option String) (vs : List String) : Bool :=
  match v with
  | some s => vs.contains s
  | none => true

/-- A required property constrained by an enum. -/
def reqInEnum (v : Option String) (vs : List String) : Bool :=
  match v with
  | some s => vs.contains s
  | none => false

/-- A required string property with `minLength: 1`. -/
def reqMinLen1 (v : Option String) : Bool :=
  match v with
  | some s => 1 ≤ s.length
  | none => false

/-- Does the argument object satisfy the tool's input schema from
`schemas.ts` (required properties present, enums respected, `minLength`
respected)?  Unknown tool names satisfy no schema. -/
def satisfiesSchema (name : String) (p : ToolArgs) : Bool :=
  if name = "monitoringInstances" then
    reqInEnum p.duration durationEnum && reqInEnum p.status statusEnum
      && reqInEnum p.environment envEnum
  else if name = "monitoringInstanceDetails" then
    reqMinLen1 p.id && reqInEnum p.environment envEnum
  else if name = "monitoringIntegrations" then
    reqInEnum p.environment envEnum && optInEnum p.returnField returnEnum
  else if name = "monitoringIntegrationDetails" then
    reqMinLen1 p.id && reqInEnum p.environment envEnum
  else if name = "monitoringAgentGroups" then
    reqInEnum p.environment envEnum
  else if name = "monitoringAgentGroupDetails" then
    reqMinLen1 p.id && reqInEnum p.environment envEnum
  else if name = "monitoringAgentsInGroup" then
    reqMinLen1 p.id && reqInEnum p.environment envEnum
  else if name = "monitoringAuditRecords" then
    reqInEnum p.environment envEnum && optInEnum p.orderBy orderByEnum
  else if name = "monitoringErrorRecoveryJobs" then
    reqInEnum p.environment envEnum && optInEnum p.orderBy orderByEnum
  else if name = "monitoringErroredInstances" then
    reqInEnum p.environment envEnum && optInEnum p.duration durationEnum
  else if name = "monitoringScheduledRuns" then
    reqInEnum p.environment envEnum && optInEnum p.orderBy orderByEnum
  else if name = "monitoringActivityStream" then
    reqMinLen1 p.id && reqInEnum p.environment envEnum
  else if name = "monitoringLogs" then
    reqMinLen1 p.id && reqInEnum p.environment envEnum
  else if name = "monitoringAbortInstance" then
    reqMinLen1 p.id && reqInEnum p.environment envEnum
  else if name = "monitoringDiscardErroredInstance" then
    reqMinLen1 p.id && reqInEnum p.environment envEnum
  else if name = "monitoringDiscardErroredInstances" then
    reqInEnum p.environment envEnum && optInEnum p.orderBy orderByEnum
  else if name = "monitoringResubmitErroredInstance" then
    reqMinLen1 p.id && reqInEnum p.environment envEnum
  else if name = "monitoringResubmitErroredInstances" then
    reqInEnum p.environment envEnum && p.instanceIds.isSome
  else if name = "monitoringErrorRecoveryJobDetails" then
    reqMinLen1 p.id && reqInEnum p.environment envEnum
  else if name = "monitoringErroredInstanceDetails" then
    reqMinLen1 p.id && reqInEnum p.environment envEnum
  else if name = "monitoringHistory" then
    reqInEnum p.environment envEnum && optInEnum p.orderBy orderByEnum
  else if name = "monitoringActivityStreamDetails" then
    reqMinLen1 p.id && reqMinLen1 p.key && reqInEnum p.environment envEnum
  else if name = "monitoringMessageCountSummary" then
    reqInEnum p.environment envEnum && optInEnum p.orderBy orderByEnum
  else if name = "monitoringAgentDetails" then
    reqMinLen1 p.id && reqMinLen1 p.key && reqInEnum p.environment envEnum
  else false

/-! #### Concrete inputs used by counterexamples and witnesses -/

/-- An upstream item carrying only a `creation-date`. -/
def itemWithDate : PagItem := ⟨some "2024-05-01T12:34:56Z", none, none, none, none⟩

/-- A braceless filter expression (the format shown in the `schemas.ts`
`q` documentation example, line 45: `timewindow:'1h', status:'FAILED', ...`). -/
def bracelessQuery : String := "timewindow:\x271h\x27"

/-- A window-filling page: 501 dated items; at `limit = 501` a single such
page both fills the window and hits the 500 offset cap. -/
def fullPage : PageResp := PageResp.ok (List.replicate 501 itemWithDate) none

/-- Upstream trace: one window-filling batch, then an empty page. -/
def windowFilledTrace : List PageResp :=
  [fullPage, PageResp.ok [] none]

/-- Upstream trace yielding 101 consecutive window-filling batches. -/
def hundredOneBatchTrace : List PageResp :=
  List.replicate 101 fullPage

/-- Upstream trace: a 401, another 401 on the retry, then an empty page. -/
def twoAuthFailTrace : List PageResp :=
  [PageResp.httpErr 401, PageResp.httpErr 401, PageResp.ok [] (some 0)]

/-! ## Theorems -/

/-! ### Helper lemmas -/

/-- Reading a path immediately after writing it yields the written record. -/
theorem storeLookup_insert (store : Store) (path : String) (td : TokenData) :
    storeLookup (storeInsert store path td) path = some td := by
  simp [storeInsert, storeLookup]

/-- A required enum property is truthy as soon as the enum has no empty
string among its values. -/
theorem truthy_of_reqInEnum (v : Option String) (vs : List String)
    (h : reqInEnum v vs = true) (hne : vs.contains "" = false) :
    truthyS v = true := by
  cases v with
  | none => simp [reqInEnum] at h
  | some s =>
    simp only [reqInEnum] at h
    simp only [truthyS, ne_eq, decide_eq_true_eq]
    rintro rfl
    rw [h] at hne
    simp at hne

/-! ### C5 — token cache expiry margin -/

/-- **C5.** If the token-cache `getToken` returns a token for a record
stored by `saveToken`, then the current time is strictly below the nominal
expiry (`store time + expires_in seconds`) minus the 60-second margin; the
margin is applied at store time (`saveTokenExpiry`), and `getToken` returns
the token exactly while the current time is strictly below that persisted
expiry. -/
theorem getToken_saveToken_margin (t0 expiresIn now : Int) (store : Store)
    (path tok : String) :
    (getToken now (saveToken t0 store path tok expiresIn) path).1 = some tok
      ↔ now < t0 + expiresIn * 1000 - 60000 := by
  unfold getToken saveToken
  rw [storeLookup_insert]
  unfold saveTokenExpiry
  split
  · simp_all
  · rename_i td heq
    cases heq
    split <;> simp_all

/-! ### C9 — token file layout -/

/-- **C9 counterexample.** The server's per-environment `TokenManager`s are
constructed with `new TokenManager()`, whose path contains no tenant
component: the `dev` and `prod1` managers persist to the *same* file, so
distinct tenants do not get distinct files and the file name does not
include the tenant id. -/
theorem tokenFiles_not_distinct_counterexample :
    serverTokenManagerPath "/home/u" "dev" = serverTokenManagerPath "/home/u" "prod1"
      ∧ ("dev" : String) ≠ "prod1"
      ∧ serverTokenManagerPath "/home/u" "dev" = "/home/u/.oic_mcp_token.json" :=
  ⟨rfl, by decide, rfl⟩

/-- **C9 (amended).** `saveToken` persists to the manager's single fixed
user-home path `<homedir>/.oic_mcp_token.json`; the server constructs one
manager per tenant but all with that same path, so all tenants share one
token file. (The parameterized `TokenManager` variant earlier in
`tokenManager.ts` would derive `.oic_mcp_token_<tenant>.json`, but the
server never passes it an environment.) -/
theorem tokenFilePath_shared_allTenants (homedir e1 e2 : String) :
    serverTokenManagerPath homedir e1 = serverTokenManagerPath homedir e2
      ∧ serverTokenManagerPath homedir e1 = homedir ++ "/.oic_mcp_token.json"
      ∧ tokenFilePathEnv homedir e1 = homedir ++ "/.oic_mcp_token_" ++ e1 ++ ".json" :=
  ⟨rfl, rfl, rfl⟩

/-! ### C10 — cross-tenant token leakage through the shared file -/

/-- **C10.** Because all four per-environment `TokenManager`s share one
file path, a token acquired and cached during a call for tenant `e1` is
returned verbatim by a later `getAccessToken` for any other tenant `e2`
(without `forceRefresh`, while the record is unexpired), and the second
call performs no token-endpoint POST at all. -/
theorem crossTenant_cachedToken_reused
    (now1 now2 : Int) (homedir e1 e2 tokA : String)
    (cfg1 cfg2 : EnvConfig) (ep2 : TokenEndpointResp)
    (hId : cfg1.clientId ≠ "") (hSec : cfg1.clientSecret ≠ "")
    (hUrl : cfg1.tokenUrl ≠ "")
    (hTime : now2 < saveTokenExpiry now1 3600) :
    (getAccessToken now1 [] homedir cfg1 false (some e1)
        (TokenEndpointResp.ok tokA (some 3600))).result = Except.ok tokA
      ∧ (getAccessToken now1 [] homedir cfg1 false (some e1)
          (TokenEndpointResp.ok tokA (some 3600))).endpointCalls = 1
      ∧ (getAccessToken now2
            (getAccessToken now1 [] homedir cfg1 false (some e1)
              (TokenEndpointResp.ok tokA (some 3600))).store
            homedir cfg2 false (some e2) ep2).result = Except.ok tokA
      ∧ (getAccessToken now2
            (getAccessToken now1 [] homedir cfg1 false (some e1)
              (TokenEndpointResp.ok tokA (some 3600))).store
            homedir cfg2 false (some e2) ep2).endpointCalls = 0 := by
  unfold getAccessToken
  simp only [serverTokenManagerPath, jsOrInt]
  simp [getToken, storeLookup, saveToken, storeInsert, storeErase, clearToken,
    hId, hSec, hUrl, hTime]

/-- Witness for C10 at concrete inputs. -/
theorem crossTenant_cachedToken_reused_witness :
    (⟨"id", "sec", "url", "sc", "base", "inst"⟩ : EnvConfig).clientId ≠ ""
      ∧ (1000 : Int) < saveTokenExpiry 0 3600
      ∧ (getAccessToken 1000
          (getAccessToken 0 [] "/home/u" ⟨"id", "sec", "url", "sc", "base", "inst"⟩
            false (some "qa3") (TokenEndpointResp.ok "tokA" (some 3600))).store
          "/home/u" ⟨"id2", "sec2", "url2", "sc2", "base2", "inst2"⟩ false
          (some "prod1") (TokenEndpointResp.fail 500 "err" "body")).result
        = Except.ok "tokA" := by
  refine ⟨by decide, by decide, ?_⟩
  exact (crossTenant_cachedToken_reused 0 1000 "/home/u" "qa3" "prod1" "tokA"
    ⟨"id", "sec", "url", "sc", "base", "inst"⟩
    ⟨"id2", "sec2", "url2", "sc2", "base2", "inst2"⟩
    (TokenEndpointResp.fail 500 "err" "body")
    (by decide) (by decide) (by decide) (by decide)).2.2.1

/-! ### C2 — bulk resubmit is a single collective POST, not a fan-out -/

/-- **C2 counterexample.** Calling the bulk resubmit tool with three ids
issues exactly one upstream POST (carrying the whole array in its body) and
returns the upstream response verbatim — not three per-id POSTs and not an
aggregate with `successCount`/`failedCount`/`details` of length 3. -/
theorem bulkResubmit_singlePost_counterexample :
    (resubmitErroredInstancesExecute (some "dev") (some ["a", "b", "c"]) "resp").posts
        = [some ["a", "b", "c"]]
      ∧ (resubmitErroredInstancesExecute (some "dev") (some ["a", "b", "c"]) "resp").posts.length
          ≠ (["a", "b", "c"] : List String).length
      ∧ (resubmitErroredInstancesExecute (some "dev") (some ["a", "b", "c"]) "resp").result
          = Except.ok "resp" := by
  refine ⟨rfl, by decide, rfl⟩

/-- **C2 (amended).** The bulk resubmit handler issues a single POST to the
collective `/monitoring/errors/resubmit` endpoint with the entire id array
in the request body and returns the upstream response unchanged (no per-id
iteration, no `successCount`/`failedCount` aggregate); the bulk discard
handler likewise issues a single POST with a null body and takes no id
array at all. -/
theorem bulkResubmit_collectivePost (env : Option String) (ids : List String)
    (resp : String) (h : truthyS env = true) :
    resubmitErroredInstancesExecute env (some ids) resp
        = ⟨Except.ok resp, 1, [some ids]⟩
      ∧ discardErroredInstancesExecute env resp = ⟨Except.ok resp, 1, [none]⟩ := by
  constructor
  · unfold resubmitErroredInstancesExecute
    rw [h]
    simp
  · unfold discardErroredInstancesExecute
    rw [h]
    simp

/-- Witness for C2 (amended) at concrete inputs. -/
theorem bulkResubmit_collectivePost_witness :
    truthyS (some "dev") = true
      ∧ resubmitErroredInstancesExecute (some "dev") (some ["a"]) "r"
          = ⟨Except.ok "r", 1, [some ["a"]]⟩ :=
  ⟨by decide, (bulkResubmit_collectivePost (some "dev") ["a"] "r" (by decide)).1⟩

/-! ### C8 — no size validation on the bulk id array -/

/-- **C8 counterexample.** An *empty* `instanceIds` array is not rejected
by the bulk resubmit tool (`tools/monitoringResubmitErroredInstances.ts`):
a JS array is truthy even when empty, so the handler acquires a token and
issues the upstream POST with the empty array in the body — there is no
`InvalidArguments` failure and upstream traffic does occur. -/
theorem bulkResubmit_emptyIds_counterexample :
    (resubmitErroredInstancesExecute (some "dev") (some []) "resp").result
        = Except.ok "resp"
      ∧ (resubmitErroredInstancesExecute (some "dev") (some []) "resp").tokenAcquisitions = 1
      ∧ (resubmitErroredInstancesExecute (some "dev") (some []) "resp").posts = [some []] :=
  ⟨rfl, rfl, rfl⟩

/-- **C8 (amended).** The bulk resubmit tool in `tools/` performs no size
validation at all: any present id array (empty or longer than 50) is
forwarded upstream in a single POST after a token acquisition. The
`part_005` variant rejects a missing/empty array *before* any upstream
traffic, but rejects an oversized array only *after* the token
acquisition. -/
theorem bulkResubmit_sizeValidation (env : Option String) (ids : List String)
    (resp : String) (h : truthyS env = true) :
    (resubmitErroredInstancesExecute env (some ids) resp).posts = [some ids]
      ∧ (resubmitErroredInstancesExecute env (some ids) resp).tokenAcquisitions = 1
      ∧ resubmitErroredInstancesExecuteV2 env (some []) resp
          = ⟨Except.error "instanceIds parameter is required. Provide an array of instance IDs to resubmit.",
             0, []⟩
      ∧ (50 < ids.length →
          resubmitErroredInstancesExecuteV2 env (some ids) resp
            = ⟨Except.error ("Maximum 50 instanceIds allowed per request. Received: "
                ++ toString ids.length), 1, []⟩) := by
  refine ⟨?_, ?_, ?_, ?_⟩
  · unfold resubmitErroredInstancesExecute; rw [h]; simp
  · unfold resubmitErroredInstancesExecute; rw [h]; simp
  · unfold resubmitErroredInstancesExecuteV2; rw [h]; simp
  · intro h50
    unfold resubmitErroredInstancesExecuteV2
    rw [h]
    have hne : ids.length ≠ 0 := by omega
    simp [hne, h50]

/-- Witness for C8 (amended) at concrete inputs (51 ids). -/
theorem bulkResubmit_sizeValidation_witness :
    truthyS (some "qa3") = true
      ∧ 50 < (List.replicate 51 "i").length
      ∧ resubmitErroredInstancesExecuteV2 (some "qa3") (some (List.replicate 51 "i")) "r"
          = ⟨Except.error ("Maximum 50 instanceIds allowed per request. Received: "
              ++ toString (List.replicate 51 "i").length), 1, []⟩ :=
  ⟨by decide, by decide,
    (bulkResubmit_sizeValidation (some "qa3") (List.replicate 51 "i") "r"
      (by decide)).2.2.2 (by decide)⟩

/-! ### C6 — tenant argument handling -/

/-- **C6 counterexample.** A `tools/call` of `monitoringInstanceDetails`
that omits the `environment` argument entirely does *not* fail with an
invalid-arguments error: the handler proceeds straight to
`getAccessToken(CONFIG, false, "dev")`, silently substituting the `dev`
environment (`part_015` lines 299-307). -/
theorem tenantRequired_counterexample :
    dispatchPre "monitoringInstanceDetails"
        ⟨none, none, none, some "inst-1", none, none, none, none, none⟩
      = PreOutcome.proceeds "dev" := rfl

/-- **C6 (amended).** Only `monitoringInstances` requires and uses the
`environment` argument (rejecting a missing one before any upstream
traffic); every other tool of the catalog ignores the argument and
proceeds with the `dev` environment, and `getAccessToken` itself defaults
a missing environment to `dev` (`environment || "dev"`). -/
theorem tenantHandling_amended :
    (∀ p : ToolArgs, p.environment = none →
        dispatchPre "monitoringInstances" p
          = PreOutcome.invalidArgs "Environment parameter is required. Valid values: \x27dev\x27, \x27qa3\x27, \x27prod1\x27, \x27prod3\x27")
      ∧ (∀ (name : String) (p : ToolArgs), devDefaultingTools.contains name = true →
          dispatchPre name p = PreOutcome.proceeds "dev")
      ∧ (∀ x : Option String, truthyS x = false → jsOrStr x "dev" = "dev") := by
  refine ⟨?_, ?_, ?_⟩
  · intro p hp
    unfold dispatchPre
    rw [hp]
    simp [truthyS]
  · intro name p hname
    have hne : name ≠ "monitoringInstances" := by
      intro hEq
      rw [hEq] at hname
      simp [devDefaultingTools] at hname
    unfold dispatchPre
    rw [if_neg hne, if_pos hname]
  · intro x hx
    cases x with
    | none => rfl
    | some s =>
      simp [truthyS] at hx
      simp [jsOrStr, hx]

/-- Witness for C6 (amended) at concrete inputs. -/
theorem tenantHandling_amended_witness :
    noArgs.environment = none
      ∧ dispatchPre "monitoringInstances" noArgs
          = PreOutcome.invalidArgs "Environment parameter is required. Valid values: \x27dev\x27, \x27qa3\x27, \x27prod1\x27, \x27prod3\x27"
      ∧ devDefaultingTools.contains "monitoringLogs" = true
      ∧ dispatchPre "monitoringLogs" noArgs = PreOutcome.proceeds "dev"
      ∧ truthyS none = false
      ∧ jsOrStr none "dev" = "dev" :=
  ⟨rfl, tenantHandling_amended.1 noArgs rfl, by decide,
    tenantHandling_amended.2.1 "monitoringLogs" noArgs (by decide), rfl,
    tenantHandling_amended.2.2 none rfl⟩

/-! ### C7 — schema validation before upstream traffic -/

/-- **C7 counterexample.** A `tools/call` of `monitoringInstanceDetails`
with *no* arguments violates the tool's schema (required `id` and
`environment` are missing), yet the dispatcher does not fail with an
invalid-arguments error: it proceeds to token acquisition and the upstream
GET (with `undefined` interpolated into the URL). -/
theorem schemaValidation_counterexample :
    satisfiesSchema "monitoringInstanceDetails" noArgs = false
      ∧ dispatchPre "monitoringInstanceDetails" noArgs = PreOutcome.proceeds "dev" :=
  ⟨rfl, rfl⟩

/-- **C7 (amended).** Schema-satisfying arguments never produce an
invalid-arguments failure — but only because the dispatcher performs no
schema validation at all: apart from `monitoringInstances`' three ad-hoc
truthiness checks, schema-violating arguments are not rejected either; the
handlers proceed to token acquisition and the upstream request. -/
theorem schemaValidation_amended :
    (∀ (name : String) (p : ToolArgs), satisfiesSchema name p = true →
        ∀ msg, dispatchPre name p ≠ PreOutcome.invalidArgs msg)
      ∧ dispatchPre "monitoringInstanceDetails" noArgs = PreOutcome.proceeds "dev" := by
  constructor
  · intro name p h msg
    by_cases hn : name = "monitoringInstances"
    · subst hn
      rw [show satisfiesSchema "monitoringInstances" p
            = (reqInEnum p.duration durationEnum && reqInEnum p.status statusEnum
                && reqInEnum p.environment envEnum) from rfl] at h
      rw [Bool.and_eq_true, Bool.and_eq_true] at h
      obtain ⟨⟨hd, hs⟩, he⟩ := h
      have td : truthyS p.duration = true := truthy_of_reqInEnum _ _ hd (by decide)
      have ts : truthyS p.status = true := truthy_of_reqInEnum _ _ hs (by decide)
      have te : truthyS p.environment = true := truthy_of_reqInEnum _ _ he (by decide)
      unfold dispatchPre
      simp [td, ts, te]
    · unfold dispatchPre
      rw [if_neg hn]
      split <;> simp
  · rfl

/-- Witness for C7 (amended) at concrete inputs. -/
theorem schemaValidation_amended_witness :
    satisfiesSchema "monitoringInstances"
        ⟨some "dev", some "1h", some "FAILED", none, none, none, none, none, none⟩ = true
      ∧ dispatchPre "monitoringInstances"
          ⟨some "dev", some "1h", some "FAILED", none, none, none, none, none, none⟩
        ≠ PreOutcome.invalidArgs "Environment parameter is required. Valid values: \x27dev\x27, \x27qa3\x27, \x27prod1\x27, \x27prod3\x27" :=
  ⟨by decide,
    schemaValidation_amended.1 "monitoringInstances"
      ⟨some "dev", some "1h", some "FAILED", none, none, none, none, none, none⟩
      (by decide) _⟩

/-! ### C1 — 401 handling: retry-once in fetchSingle, unbounded in
fetchWithPagination -/

/-- With the retry guard cleared, `fetchSingle` never refreshes. -/
theorem fetchSingle_noRetry_refreshes (trace : List SingleResp) :
    (fetchSingle trace false).refreshes = 0 := by
  cases trace with
  | nil => rfl
  | cons r rest => cases r <;> simp [fetchSingle]

/-- `fetchSingle` performs at most one token refresh per call. -/
theorem fetchSingle_refreshes_le_one (trace : List SingleResp) (retryOn401 : Bool) :
    (fetchSingle trace retryOn401).refreshes ≤ 1 := by
  cases trace with
  | nil => simp [fetchSingle]
  | cons r rest =>
    cases r with
    | ok d => simp [fetchSingle]
    | httpErr status statusText data =>
      unfold fetchSingle
      split
      · simp [fetchSingle_noRetry_refreshes rest]
      · simp

/-- **C1 counterexample.** In `fetchWithPagination`, a 401 on the retried
request does *not* fail the call with an authentication failure: the loop
refreshes the token again and keeps retrying (its `retryOn401` guard is
never cleared). On the trace 401, 401, 200 the paginated fetch *succeeds*
after two token refreshes and three GETs — the claim requires it to fail
after the second 401. -/
theorem pagRetry_counterexample :
    (fetchWithPagination twoAuthFailTrace none none true).stats.refreshes = 2
      ∧ (fetchWithPagination twoAuthFailTrace none none true).stats.requests.length = 3
      ∧ (fetchWithPagination twoAuthFailTrace none none true).result
          = Except.ok ⟨0, 0, []⟩ :=
  ⟨rfl, rfl, rfl⟩

/-- **C1 (amended).** `fetchSingle` absorbs each 401 with exactly one token
eviction + refresh and at most one retry: two successive 401s make the call
throw the 401, which the dispatcher renders as the authentication-failure
diagnostic. `fetchWithPagination`, however, refreshes and retries on
*every* 401 without clearing its retry guard, so successive 401s lead to
repeated refresh-and-retry instead of a failure. -/
theorem authRetry_amended :
    (∀ (trace : List SingleResp) (r : Bool), (fetchSingle trace r).refreshes ≤ 1)
      ∧ (∀ (rest : List SingleResp) st1 d1 st2 d2,
          fetchSingle (SingleResp.httpErr 401 st1 d1 :: SingleResp.httpErr 401 st2 d2 :: rest) true
            = ⟨Except.error (FetchErr.httpFailure 401 st2 d2), 1, 2⟩)
      ∧ (∀ name st d, errorMessage name (FetchErr.httpFailure 401 st d)
            = "Authentication failed (401): The access token may be invalid or expired. Please check your OIC credentials.")
      ∧ (∀ (limit : Nat) (qP : Option String) (trace : List PageResp) (offset : Nat)
            (acc : List PagItem) (tot : Option Nat) (accReqs : List UpReq)
            (okReqs refreshes : Nat), offset ≤ 500 →
          batchLoop true limit qP (PageResp.httpErr 401 :: trace) offset acc tot
              accReqs okReqs refreshes
            = batchLoop true limit qP trace offset acc tot
                (accReqs ++ [⟨qP, offset, limit⟩]) okReqs (refreshes + 1)) := by
  refine ⟨fetchSingle_refreshes_le_one, ?_, ?_, ?_⟩
  · intro rest st1 d1 st2 d2
    unfold fetchSingle
    simp [fetchSingle]
  · intro name st d
    rfl
  · intro limit qP trace offset acc tot accReqs okReqs refreshes hoff
    rw [batchLoop]
    rw [if_pos hoff]
    simp

/-- Witness for C1 (amended) at concrete inputs. -/
theorem authRetry_amended_witness :
    (0 : Nat) ≤ 500
      ∧ batchLoop true 50 none [PageResp.httpErr 401] 0 [] none [] 0 0
          = batchLoop true 50 none [] 0 [] none [⟨none, 0, 50⟩] 0 1 :=
  ⟨by decide,
    authRetry_amended.2.2.2 50 none [] 0 [] none [] 0 0 (by decide)⟩

/-! ### Pagination lemmas (for C3 and C4) -/

/-- Every inner batch starting at an in-window offset records the request
for that offset first (with the batch's `q` and `limit`). -/
theorem batchLoop_reqs_head (trace : List PageResp) :
    ∀ (retry : Bool) (limit : Nat) (qP : Option String) (offset : Nat)
      (acc : List PagItem) (tot : Option Nat) (accReqs : List UpReq)
      (okAcc refr : Nat), offset ≤ 500 →
      ∃ l, (batchLoop retry limit qP trace offset acc tot accReqs okAcc refr).reqs
        = accReqs ++ ⟨qP, offset, limit⟩ :: l := by
  induction trace with
  | nil =>
    intro retry limit qP offset acc tot accReqs okAcc refr hoff
    refine ⟨[], ?_⟩
    unfold batchLoop
    rw [if_pos hoff]
  | cons r rest ih =>
    intro retry limit qP offset acc tot accReqs okAcc refr hoff
    unfold batchLoop
    rw [if_pos hoff]
    cases r with
    | ok items tot2 =>
      by_cases hshort : items.length < limit
      · exact ⟨[], by simp [hshort]⟩
      · by_cases hcap : 500 < offset + limit
        · exact ⟨[], by simp [hshort, hcap]⟩
        · have hoff2 : offset + limit ≤ 500 := Nat.le_of_not_lt hcap
          obtain ⟨l', hl'⟩ := ih retry limit qP (offset + limit) (acc ++ items)
            (match tot2 with
             | some t => if tot = none then some t else tot
             | none => tot)
            (accReqs ++ [⟨qP, offset, limit⟩]) (okAcc + 1) refr hoff2
          refine ⟨⟨qP, offset + limit, limit⟩ :: l', ?_⟩
          simp only [hshort, if_false, hcap, ite_false]
          simp [hl']
    | httpErr status =>
      dsimp only
      by_cases h401 : status = 401 ∧ retry = true
      · obtain ⟨l', hl'⟩ := ih retry limit qP offset acc tot
          (accReqs ++ [⟨qP, offset, limit⟩]) okAcc (refr + 1) hoff
        refine ⟨⟨qP, offset, limit⟩ :: l', ?_⟩
        rw [if_pos h401]
        simp [hl']
      · refine ⟨[], ?_⟩
        rw [if_neg h401]

/-- A batch that ended at the offset cap collected at least `limit` items
beyond what it started with (every page before a cap exit has at least
`limit` items). -/
theorem batchLoop_endedAtCap_length (trace : List PageResp) :
    ∀ (retry : Bool) (limit : Nat) (qP : Option String) (offset : Nat)
      (acc : List PagItem) (tot : Option Nat) (accReqs : List UpReq)
      (okAcc refr : Nat),
      (batchLoop retry limit qP trace offset acc tot accReqs okAcc refr).endedAtCap = true →
      acc.length + limit
        ≤ (batchLoop retry limit qP trace offset acc tot accReqs okAcc refr).batchItems.length := by
  induction trace with
  | nil =>
    intro retry limit qP offset acc tot accReqs okAcc refr
    unfold batchLoop
    by_cases hoff : offset ≤ 500
    · rw [if_pos hoff]; intro h; simp at h
    · rw [if_neg hoff]; intro h; simp at h
  | cons r rest ih =>
    intro retry limit qP offset acc tot accReqs okAcc refr
    unfold batchLoop
    by_cases hoff : offset ≤ 500
    · rw [if_pos hoff]
      cases r with
      | ok items tot2 =>
        by_cases hshort : items.length < limit
        · dsimp only
          rw [if_pos hshort]
          intro h; simp at h
        · by_cases hcap : 500 < offset + limit
          · dsimp only
            rw [if_neg hshort, if_pos hcap]
            intro _
            have hlim : limit ≤ items.length := Nat.le_of_not_lt hshort
            simp only [List.length_append]
            omega
          · dsimp only
            rw [if_neg hshort, if_neg hcap]
            have hlim : limit ≤ items.length := Nat.le_of_not_lt hshort
            cases tot2 with
            | none =>
              dsimp only
              intro h
              have h2 := ih retry limit qP (offset + limit) (acc ++ items) tot
                (accReqs ++ [⟨qP, offset, limit⟩]) (okAcc + 1) refr h
              simp only [List.length_append] at h2
              omega
            | some t =>
              dsimp only
              intro h
              have h2 := ih retry limit qP (offset + limit) (acc ++ items)
                (if tot = none then some t else tot)
                (accReqs ++ [⟨qP, offset, limit⟩]) (okAcc + 1) refr h
              simp only [List.length_append] at h2
              omega
      | httpErr status =>
        by_cases h401 : status = 401 ∧ retry = true
        · dsimp only
          rw [if_pos h401]
          exact ih retry limit qP offset acc tot
            (accReqs ++ [⟨qP, offset, limit⟩]) okAcc (refr + 1)
        · dsimp only
          rw [if_neg h401]
          intro h; simp at h
    · rw [if_neg hoff]
      intro h; simp at h

/-- Within one batch, at most `⌊500 / limit⌋ + 1` requests receive a 2xx
response (the offsets walked are `0, limit, 2·limit, … ≤ 500`); 401-retry
requests come on top of this. -/
theorem batchLoop_okRequests_le (trace : List PageResp) :
    ∀ (retry : Bool) (limit : Nat) (qP : Option String) (offset : Nat)
      (acc : List PagItem) (tot : Option Nat) (accReqs : List UpReq)
      (okAcc refr : Nat), 1 ≤ limit → offset ≤ 500 →
      (batchLoop retry limit qP trace offset acc tot accReqs okAcc refr).okRequests
        ≤ okAcc + ((500 - offset) / limit + 1) := by
  induction trace with
  | nil =>
    intro retry limit qP offset acc tot accReqs okAcc refr hlim hoff
    unfold batchLoop
    rw [if_pos hoff]
    dsimp only
    exact Nat.le_add_right _ _
  | cons r rest ih =>
    intro retry limit qP offset acc tot accReqs okAcc refr hlim hoff
    unfold batchLoop
    rw [if_pos hoff]
    cases r with
    | ok items tot2 =>
      dsimp only
      by_cases hshort : items.length < limit
      · rw [if_pos hshort]
        dsimp only
        exact Nat.add_le_add_left (Nat.le_add_left 1 _) okAcc
      · rw [if_neg hshort]
        by_cases hcap : 500 < offset + limit
        · rw [if_pos hcap]
          dsimp only
          exact Nat.add_le_add_left (Nat.le_add_left 1 _) okAcc
        · rw [if_neg hcap]
          have hoff2 : offset + limit ≤ 500 := Nat.le_of_not_lt hcap
          have hdiv : (500 - offset) / limit = (500 - (offset + limit)) / limit + 1 := by
            have h0 : (500 - offset) / limit = ((500 - offset) - limit) / limit + 1 :=
              Nat.div_eq_sub_div hlim (by omega)
            have h1 : 500 - offset - limit = 500 - (offset + limit) := by omega
            rw [h1] at h0
            exact h0
          rw [hdiv]
          cases tot2 with
          | none =>
            dsimp only
            have h2 := ih retry limit qP (offset + limit) (acc ++ items) tot
              (accReqs ++ [⟨qP, offset, limit⟩]) (okAcc + 1) refr hlim hoff2
            set A := (500 - (offset + limit)) / limit with hA
            omega
          | some t =>
            dsimp only
            have h2 := ih retry limit qP (offset + limit) (acc ++ items)
              (if tot = none then some t else tot)
              (accReqs ++ [⟨qP, offset, limit⟩]) (okAcc + 1) refr hlim hoff2
            set A := (500 - (offset + limit)) / limit with hA
            omega
    | httpErr status =>
      dsimp only
      by_cases h401 : status = 401 ∧ retry = true
      · rw [if_pos h401]
        exact ih retry limit qP offset acc tot
          (accReqs ++ [⟨qP, offset, limit⟩]) okAcc (refr + 1) hlim hoff
      · rw [if_neg h401]
        dsimp only
        exact Nat.le_add_right _ _

/-- The outer loop executes at most `max rem 1` further batches. -/
theorem pagLoop_batches_le (rem : Nat) :
    ∀ (retry : Bool) (limit : Nat) (qInit : Option String) (trace : List PageResp)
      (st : PagState) (accReqs : List UpReq) (accOk accRefr : Nat),
      (pagLoop rem retry limit qInit trace st accReqs accOk accRefr).stats.batches
        ≤ st.batchNumber + max rem 1 := by
  induction rem with
  | zero =>
    intro retry limit qInit trace st accReqs accOk accRefr
    unfold pagLoop
    dsimp only
    split
    · dsimp only; omega
    · split
      · dsimp only; omega
      · split
        · dsimp only; omega
        · split
          · dsimp only; omega
          · dsimp only; omega
  | succ rem' ih =>
    intro retry limit qInit trace st accReqs accOk accRefr
    unfold pagLoop
    dsimp only
    split
    · dsimp only; omega
    · split
      · dsimp only; omega
      · split
        · dsimp only; omega
        · split
          · dsimp only; omega
          · by_cases hz : rem' = 0
            · rw [if_pos hz]
              dsimp only
              omega
            · rw [if_neg hz]
              refine le_trans (ih retry limit qInit _ _ _ _ _) ?_
              dsimp only
              omega

/-- The outer loop only appends to the accumulated request log. -/
theorem pagLoop_requests_mono (rem : Nat) :
    ∀ (retry : Bool) (limit : Nat) (qInit : Option String) (trace : List PageResp)
      (st : PagState) (accReqs : List UpReq) (accOk accRefr : Nat),
      ∃ l, (pagLoop rem retry limit qInit trace st accReqs accOk accRefr).stats.requests
        = accReqs ++ l := by
  induction rem with
  | zero =>
    intro retry limit qInit trace st accReqs accOk accRefr
    unfold pagLoop
    dsimp only
    split
    · exact ⟨_, rfl⟩
    · split
      · exact ⟨_, rfl⟩
      · split
        · exact ⟨_, rfl⟩
        · split
          · exact ⟨_, rfl⟩
          · exact ⟨_, rfl⟩
  | succ rem' ih =>
    intro retry limit qInit trace st accReqs accOk accRefr
    unfold pagLoop
    dsimp only
    split
    · exact ⟨_, rfl⟩
    · split
      · exact ⟨_, rfl⟩
      · split
        · exact ⟨_, rfl⟩
        · split
          · exact ⟨_, rfl⟩
          · by_cases hz : rem' = 0
            · rw [if_pos hz]
              exact ⟨_, rfl⟩
            · rw [if_neg hz]
              rename_i x0 d heqd
              obtain ⟨l2, hl2⟩ := ih retry limit qInit
                (batchLoop retry limit (pagQuery qInit st).1 trace 0 [] st.totalRecords [] 0 0).rest
                ⟨st.allItems
                    ++ (batchLoop retry limit (pagQuery qInit st).1 trace 0 [] st.totalRecords [] 0 0).batchItems,
                  (batchLoop retry limit (pagQuery qInit st).1 trace 0 [] st.totalRecords [] 0 0).totalRecords,
                  (pagQuery qInit st).2, some d, st.batchNumber + 1⟩
                (accReqs
                  ++ (batchLoop retry limit (pagQuery qInit st).1 trace 0 [] st.totalRecords [] 0 0).reqs)
                (accOk + (batchLoop retry limit (pagQuery qInit st).1 trace 0 [] st.totalRecords [] 0 0).okRequests)
                (accRefr + (batchLoop retry limit (pagQuery qInit st).1 trace 0 [] st.totalRecords [] 0 0).refreshes)
              exact ⟨(batchLoop retry limit (pagQuery qInit st).1 trace 0 [] st.totalRecords [] 0 0).reqs ++ l2,
                by rw [hl2, List.append_assoc]⟩

/-! ### C4 — pagination bounds -/

/-- One window-filling page at `limit = 501`: the inner loop issues exactly
one request, collects the 501 items, and exits at the offset cap. -/
theorem batchLoop_fullPage (qP : Option String) (rest : List PageResp) (tot : Option Nat) :
    batchLoop true 501 qP (fullPage :: rest) 0 [] tot [] 0 0
      = ⟨none, List.replicate 501 itemWithDate, tot, rest, [⟨qP, 0, 501⟩], 1, 0, true⟩ := by
  have hlen : (List.replicate 501 itemWithDate).length = 501 := List.length_replicate ..
  unfold batchLoop fullPage
  rw [if_pos (by omega : (0 : Nat) ≤ 500)]
  dsimp only
  rw [if_neg (by rw [hlen]; omega), if_pos (by omega : (500 : Nat) < 0 + 501)]
  rfl

/-- An exhausted trace: the request is issued but no response arrives. -/
theorem batchLoop_nil (retry : Bool) (limit : Nat) (qP : Option String)
    (offset : Nat) (acc : List PagItem) (tot : Option Nat) (accReqs : List UpReq)
    (okAcc refr : Nat) (hoff : offset ≤ 500) :
    batchLoop retry limit qP [] offset acc tot accReqs okAcc refr
      = ⟨some PagErr.network, acc, tot, [], accReqs ++ [⟨qP, offset, limit⟩], okAcc, refr, false⟩ := by
  unfold batchLoop
  rw [if_pos hoff]

/-- An exhausted trace fails the batch with a transport error, leaving the
batch counter untouched. -/
theorem pagLoop_nilTrace (rem : Nat) (retry : Bool) (limit : Nat)
    (qInit : Option String) (st : PagState) (accReqs : List UpReq)
    (accOk accRefr : Nat) :
    (pagLoop rem retry limit qInit [] st accReqs accOk accRefr).stats.batches
      = st.batchNumber := by
  cases rem <;>
    (unfold pagLoop
     dsimp only
     rw [batchLoop_nil _ _ _ _ _ _ _ _ _ (by omega)])

/-- On an upstream that answers every request with a window-filling page,
the outer loop runs `min (max rem 1) n` batches (`n` pages available). -/
theorem pagLoop_fullPages (rem : Nat) :
    ∀ (n : Nat) (st : PagState) (accReqs : List UpReq) (accOk accRefr : Nat), 1 ≤ n →
      (pagLoop rem true 501 none (List.replicate n fullPage) st accReqs accOk accRefr).stats.batches
        = st.batchNumber + min (max rem 1) n := by
  induction rem with
  | zero =>
    intro n st accReqs accOk accRefr hn
    obtain ⟨n', rfl⟩ : ∃ n', n = n' + 1 := ⟨n - 1, by omega⟩
    rw [List.replicate_succ]
    unfold pagLoop
    dsimp only
    rw [batchLoop_fullPage]
    dsimp only
    have hlen : (List.replicate 501 itemWithDate).length = 501 := List.length_replicate ..
    rw [if_neg (show ¬ ((List.replicate 501 itemWithDate).length = 0
      ∨ (List.replicate 501 itemWithDate).length < 501) from by rw [hlen]; omega)]
    rw [show (List.replicate 501 itemWithDate).getLast? = some itemWithDate from by
      rw [List.getLast?_eq_head?_reverse, List.reverse_replicate]; rfl]
    dsimp only
    rw [show recordDate itemWithDate = some "2024-05-01T12:34:56Z" from rfl]
    dsimp only
    omega
  | succ rem' ih =>
    intro n st accReqs accOk accRefr hn
    obtain ⟨n', rfl⟩ : ∃ n', n = n' + 1 := ⟨n - 1, by omega⟩
    rw [List.replicate_succ]
    unfold pagLoop
    dsimp only
    rw [batchLoop_fullPage]
    dsimp only
    have hlen : (List.replicate 501 itemWithDate).length = 501 := List.length_replicate ..
    rw [if_neg (show ¬ ((List.replicate 501 itemWithDate).length = 0
      ∨ (List.replicate 501 itemWithDate).length < 501) from by rw [hlen]; omega)]
    rw [show (List.replicate 501 itemWithDate).getLast? = some itemWithDate from by
      rw [List.getLast?_eq_head?_reverse, List.reverse_replicate]; rfl]
    dsimp only
    rw [show recordDate itemWithDate = some "2024-05-01T12:34:56Z" from rfl]
    dsimp only
    by_cases hz : rem' = 0
    · rw [if_pos hz]
      dsimp only
      omega
    · rw [if_neg hz]
      by_cases hn' : 1 ≤ n'
      · have h2 := ih n'
          ⟨st.allItems ++ List.replicate 501 itemWithDate, st.totalRecords,
            (pagQuery none st).2, some "2024-05-01T12:34:56Z", st.batchNumber + 1⟩
          (accReqs ++ [⟨(pagQuery none st).1, 0, 501⟩]) (accOk + 1) (accRefr + 0) hn'
        dsimp only at h2
        rw [h2]
        omega
      · have hz' : n' = 0 := by omega
        subst hz'
        rw [show List.replicate 0 fullPage = [] from rfl]
        rw [pagLoop_nilTrace]
        dsimp only
        omega

/-- **C4 counterexample.** The safety check `if (batchNumber > 100) break`
fires only *after* the 101st batch has run: on an upstream that keeps
filling the paging window, the retrieval performs 101 batches, exceeding
the claimed 100-batch bound. -/
theorem pagBatches_counterexample :
    (fetchWithPagination hundredOneBatchTrace none (some 501) true).stats.batches = 101
      ∧ ¬ (fetchWithPagination hundredOneBatchTrace none (some 501) true).stats.batches ≤ 100 := by
  have h := pagLoop_fullPages 101 101 ⟨[], none, jsOrStr none "", none, 0⟩ [] 0 0 (by omega)
  have h2 : (fetchWithPagination hundredOneBatchTrace none (some 501) true).stats.batches = 101 := by
    unfold fetchWithPagination hundredOneBatchTrace
    rw [show jsOrNat (some 501) 50 = 501 from rfl]
    rw [h]
    rfl
  exact ⟨h2, by omega⟩

/-- **C4 (amended).** Every paginated retrieval executes at most **101**
batches (the safety check stops the loop after batch 101), and within a
single batch at most `⌊500 / limit⌋ + 1` requests receive a 2xx answer
(not counting 401-retry repeats, each of which adds one extra request);
`⌊500/limit⌋ + 1 ≤ ⌈500/limit⌉ + 1`, so the spec's `ceil` bound holds for
the 2xx requests as well. Reaching the batch bound terminates the loop and
returns the items collected so far. -/
theorem pagBounds_amended :
    (∀ (trace : List PageResp) (qInit : Option String) (limitParam : Option Nat)
        (retry : Bool),
        (fetchWithPagination trace qInit limitParam retry).stats.batches ≤ 101)
      ∧ (∀ (retry : Bool) (limit : Nat) (qP : Option String) (trace : List PageResp)
          (tot : Option Nat), 1 ≤ limit →
          (batchLoop retry limit qP trace 0 [] tot [] 0 0).okRequests
            ≤ 500 / limit + 1) := by
  constructor
  · intro trace qInit limitParam retry
    have h := pagLoop_batches_le 101 retry (jsOrNat limitParam 50) qInit trace
      ⟨[], none, jsOrStr qInit "", none, 0⟩ [] 0 0
    simpa [fetchWithPagination] using h
  · intro retry limit qP trace tot hlim
    have h := batchLoop_okRequests_le trace retry limit qP 0 [] tot [] 0 0 hlim
      (by omega)
    simpa using h

/-- Witness for C4 (amended) at concrete inputs. -/
theorem pagBounds_amended_witness :
    (1 : Nat) ≤ 50
      ∧ (batchLoop true 50 none [PageResp.ok [] (some 0)] 0 [] none [] 0 0).okRequests
          ≤ 500 / 50 + 1 :=
  ⟨by decide, pagBounds_amended.2 true 50 none [PageResp.ok [] (some 0)] none (by decide)⟩

/-! ### C3 — date-keyed filter rewrite -/

/-- A short page ends the batch normally. -/
theorem batchLoop_shortPage (retry : Bool) (limit : Nat) (qP : Option String)
    (items : List PagItem) (tot2 : Option Nat) (rest : List PageResp)
    (tot : Option Nat) (offset : Nat) (acc : List PagItem) (accReqs : List UpReq)
    (okAcc refr : Nat) (hoff : offset ≤ 500) (hshort : items.length < limit) :
    batchLoop retry limit qP (PageResp.ok items tot2 :: rest) offset acc tot accReqs okAcc refr
      = ⟨none, acc ++ items,
          (match tot2 with
           | some t => if tot = none then some t else tot
           | none => tot),
          rest, accReqs ++ [⟨qP, offset, limit⟩], okAcc + 1, refr, false⟩ := by
  unfold batchLoop
  rw [if_pos hoff]
  dsimp only
  rw [if_pos hshort]

set_option maxRecDepth 10000 in
/-- **C3 counterexample.** With a filter in the very format documented in
`schemas.ts` (`timewindow:'1h'` — no surrounding braces), a batch that
fills the paging window and whose final item carries a `creation-date`
does *not* get a `startdate` clause: the rewrite's second regex
(`replace(/\x7d$/, ...)`) matches nothing, so the next batch is issued
with the original filter unchanged (and the run would re-read the same
window). The recorded requests of the run show the second batch's `q`
identical to the first and containing no `startdate`. -/
theorem pagRewrite_counterexample :
    (fetchWithPagination windowFilledTrace (some bracelessQuery) (some 501) true).stats.requests
        = [⟨some bracelessQuery, 0, 501⟩, ⟨some bracelessQuery, 0, 501⟩]
      ∧ hasStartdate bracelessQuery = false
      ∧ recordDate itemWithDate = some "2024-05-01T12:34:56Z" := by
  refine ⟨?_, rfl, rfl⟩
  unfold fetchWithPagination windowFilledTrace
  rw [show jsOrNat (some 501) 50 = 501 from rfl,
    show jsOrStr (some bracelessQuery) "" = bracelessQuery from rfl]
  unfold pagLoop
  dsimp only
  rw [show pagQuery (some bracelessQuery) ⟨[], none, bracelessQuery, none, 0⟩
        = (some bracelessQuery, bracelessQuery) from rfl]
  dsimp only
  rw [batchLoop_fullPage]
  dsimp only
  have hlen : (List.replicate 501 itemWithDate).length = 501 := List.length_replicate ..
  rw [if_neg (show ¬ ((List.replicate 501 itemWithDate).length = 0
    ∨ (List.replicate 501 itemWithDate).length < 501) from by rw [hlen]; omega)]
  rw [show (List.replicate 501 itemWithDate).getLast? = some itemWithDate from by
    rw [List.getLast?_eq_head?_reverse, List.reverse_replicate]; rfl]
  dsimp only
  rw [show recordDate itemWithDate = some "2024-05-01T12:34:56Z" from rfl]
  dsimp only
  rw [if_neg (show ¬ (100 : Nat) = 0 by omega)]
  unfold pagLoop
  dsimp only
  rw [show pagQuery (some bracelessQuery)
        ⟨[] ++ List.replicate 501 itemWithDate, none, bracelessQuery,
          some "2024-05-01T12:34:56Z", 0 + 1⟩
      = (some bracelessQuery, bracelessQuery) from rfl]
  dsimp only
  rw [batchLoop_shortPage true 501 (some bracelessQuery) [] none [] none 0 [] [] 0 0
    (by omega) (by simp)]
  rfl

set_option maxRecDepth 10000 in
/-- **C3 (amended).** When a batch fills the paging window, the next batch
restarts at `offset = 0` with the filter produced by `rewriteQuery` from
the record date of the batch's final item (candidate keys tried in order,
`creation-date` first, empty strings treated as absent); `rewriteQuery`
deletes existing `startdate:<run>` substrings and splices
`, startdate:'<date>'` in *before a terminating brace* — an empty filter
becomes `{startdate:'<date>'}`, a re-rewritten filter keeps a stray comma
from the removed clause, and a filter not ending in `}` is left without any
`startdate` clause. A window-filling batch always holds at least `limit`
items; if the final item carries none of the date keys, pagination ends
with the items collected so far. -/
theorem pagRewrite_amended :
    (∀ d : String, rewriteQuery "" d = "\x7bstartdate:\x27" ++ d ++ "\x27\x7d")
      ∧ rewriteQuery "\x7btimewindow:\x271h\x27\x7d" "D"
          = "\x7btimewindow:\x271h\x27, startdate:\x27D\x27\x7d"
      ∧ rewriteQuery "\x7btimewindow:\x271h\x27, startdate:\x27D\x27\x7d" "E"
          = "\x7btimewindow:\x271h\x27, , startdate:\x27E\x27\x7d"
      ∧ (∀ d : String, rewriteQuery bracelessQuery d = bracelessQuery)
      ∧ (∀ (it : PagItem) (v : String), it.creationDateHyphen = some v → v ≠ "" →
          recordDate it = some v)
      ∧ (∀ (rem : Nat) (retry : Bool) (limit : Nat) (qInit : Option String)
          (trace : List PageResp) (st : PagState) (accReqs : List UpReq)
          (accOk accRefr : Nat) (d : String), st.lastRecordDate = some d →
          ∃ l, (pagLoop rem retry limit qInit trace st accReqs accOk accRefr).stats.requests
            = accReqs ++ ⟨some (rewriteQuery st.baseQuery d), 0, limit⟩ :: l)
      ∧ (∀ (trace : List PageResp) (retry : Bool) (limit : Nat) (qP : Option String)
          (tot : Option Nat),
          (batchLoop retry limit qP trace 0 [] tot [] 0 0).endedAtCap = true →
          limit ≤ (batchLoop retry limit qP trace 0 [] tot [] 0 0).batchItems.length)
      ∧ (∀ (rem : Nat) (retry : Bool) (limit : Nat) (qInit : Option String)
          (trace : List PageResp) (st : PagState) (accReqs : List UpReq)
          (accOk accRefr : Nat) (lastIt : PagItem),
          (batchLoop retry limit (pagQuery qInit st).1 trace 0 [] st.totalRecords [] 0 0).err
              = none →
          ¬ ((batchLoop retry limit (pagQuery qInit st).1 trace 0 [] st.totalRecords [] 0 0).batchItems.length = 0
              ∨ (batchLoop retry limit (pagQuery qInit st).1 trace 0 [] st.totalRecords [] 0 0).batchItems.length < limit) →
          (batchLoop retry limit (pagQuery qInit st).1 trace 0 [] st.totalRecords [] 0 0).batchItems.getLast?
              = some lastIt →
          recordDate lastIt = none →
          ∃ t, (pagLoop rem retry limit qInit trace st accReqs accOk accRefr).result
            = Except.ok ⟨t,
                (st.allItems
                  ++ (batchLoop retry limit (pagQuery qInit st).1 trace 0 [] st.totalRecords [] 0 0).batchItems).length,
                st.allItems
                  ++ (batchLoop retry limit (pagQuery qInit st).1 trace 0 [] st.totalRecords [] 0 0).batchItems⟩) := by
  refine ⟨?_, by decide, by decide, ?_, ?_, ?_, ?_, ?_⟩
  · intro d
    unfold rewriteQuery
    rw [if_pos rfl]
  · intro d
    rfl
  · intro it v hv hne
    unfold recordDate jsOrS
    rw [hv]
    simp [hne]
  · intro rem retry limit qInit trace st accReqs accOk accRefr d hld
    have hq : pagQuery qInit st
        = (some (rewriteQuery st.baseQuery d), rewriteQuery st.baseQuery d) := by
      unfold pagQuery
      rw [hld]
    obtain ⟨l0, hl0⟩ := batchLoop_reqs_head trace retry limit (pagQuery qInit st).1 0 []
      st.totalRecords [] 0 0 (by omega)
    rw [List.nil_append] at hl0
    cases rem with
    | zero =>
      unfold pagLoop
      dsimp only
      split
      · exact ⟨l0, by rw [hl0, hq]⟩
      · split
        · exact ⟨l0, by rw [hl0, hq]⟩
        · split
          · exact ⟨l0, by rw [hl0, hq]⟩
          · split
            · exact ⟨l0, by rw [hl0, hq]⟩
            · exact ⟨l0, by rw [hl0, hq]⟩
    | succ rem' =>
      unfold pagLoop
      dsimp only
      split
      · exact ⟨l0, by rw [hl0, hq]⟩
      · split
        · exact ⟨l0, by rw [hl0, hq]⟩
        · split
          · exact ⟨l0, by rw [hl0, hq]⟩
          · split
            · exact ⟨l0, by rw [hl0, hq]⟩
            · by_cases hz : rem' = 0
              · rw [if_pos hz]
                exact ⟨l0, by rw [hl0, hq]⟩
              · rw [if_neg hz]
                rename_i x0 dd heqd
                obtain ⟨l2, hl2⟩ := pagLoop_requests_mono rem' retry limit qInit
                  (batchLoop retry limit (pagQuery qInit st).1 trace 0 [] st.totalRecords [] 0 0).rest
                  ⟨st.allItems
                      ++ (batchLoop retry limit (pagQuery qInit st).1 trace 0 [] st.totalRecords [] 0 0).batchItems,
                    (batchLoop retry limit (pagQuery qInit st).1 trace 0 [] st.totalRecords [] 0 0).totalRecords,
                    (pagQuery qInit st).2, some dd, st.batchNumber + 1⟩
                  (accReqs
                    ++ (batchLoop retry limit (pagQuery qInit st).1 trace 0 [] st.totalRecords [] 0 0).reqs)
                  (accOk + (batchLoop retry limit (pagQuery qInit st).1 trace 0 [] st.totalRecords [] 0 0).okRequests)
                  (accRefr + (batchLoop retry limit (pagQuery qInit st).1 trace 0 [] st.totalRecords [] 0 0).refreshes)
                refine ⟨l0 ++ l2, ?_⟩
                rw [hl2, hl0, hq]
                simp [List.append_assoc]
  · intro trace retry limit qP tot hcap
    have h := batchLoop_endedAtCap_length trace retry limit qP 0 [] tot [] 0 0 hcap
    simpa using h
  · intro rem retry limit qInit trace st accReqs accOk accRefr lastIt h1 h2 h3 h4
    cases rem with
    | zero =>
      unfold pagLoop
      dsimp only
      rw [h1, if_neg h2, h3]
      dsimp only
      rw [h4]
      exact ⟨_, rfl⟩
    | succ rem' =>
      unfold pagLoop
      dsimp only
      rw [h1, if_neg h2, h3]
      dsimp only
      rw [h4]
      exact ⟨_, rfl⟩

/-- Witness for C3 (amended) at concrete inputs: a window-filling batch at
`limit = 501`. -/
theorem pagRewrite_amended_witness :
    (batchLoop true 501 none [fullPage] 0 [] none [] 0 0).endedAtCap = true
      ∧ 501 ≤ (batchLoop true 501 none [fullPage] 0 [] none [] 0 0).batchItems.length := by
  have hcap : (batchLoop true 501 none [fullPage] 0 [] none [] 0 0).endedAtCap = true := by
    rw [show ([fullPage] : List PageResp) = fullPage :: [] from rfl, batchLoop_fullPage]
  exact ⟨hcap, pagRewrite_amended.2.2.2.2.2.2.1 [fullPage] true 501 none none hcap⟩
